import Mathlib

/-!
Verification development for the rps IP-reputation reporting system
(SpamExperts/rps-reputation).  The definitions below are a shallow
embedding of src/rps/report.py: byte strings are represented as
List Nat (one entry per byte), Python exceptions become an explicit
error type, and the server request handler becomes a pure state
transformer.  The operative language of the source is Python 2
(for example, mixed-type comparisons such as str >= int are legal
and return True), and the embedding mirrors that semantics where
the source relies on it.
-/

set_option maxRecDepth 40000

namespace Rps

/-- The Python exception classes that the source can raise.  Only
AssertionError is caught by the request handler around subreport
processing; struct.error is caught inside process_subreports; the
rest propagate out of the affected call. -/
inductive PyError where
  | assertionError
  | indexError
  | typeError
  | structError
  | valueError
  | unicodeDecodeError
  | attributeError
deriving DecidableEq

/-- The EVENTS table of src/rps/report.py lines 47-87: event kinds in
wire order, the wire byte being the list index. -/
def EVENTS : List String :=
  ["RESERVED", "GREYLISTED", "UNGREYLISTED", "AUTO-SPAM", "HAND-SPAM",
   "AUTO-HAM", "HAND-HAM", "VALID-RECIPIENT", "INVALID-RECIPIENT",
   "VIRUS", "PHISH", "AUTH-FAILED"]

/-- The protocol version constant (VERSION = 2). -/
def VERSION : Nat := 2

/-- A dynamically typed Python value, as stored in the repeat
attribute of RepeatedIPEvent: the client constructor stores an int,
while RepeatedIPEvent.from_bytes stores a str (an entry of EVENTS). -/
inductive PyVal where
  | int (v : Int)
  | str (s : String)
deriving DecidableEq

/-- Python 2 evaluation of the expression (v >= 2) as used by the
assert in RepeatedIPEvent.__init__: for an int the numeric
comparison, while any str compares greater than any int under the
Python 2 mixed-type ordering. -/
def pyGe2 : PyVal → Bool
  | .int v => decide (2 ≤ v)
  | .str _ => true

/-- An address object produced by ipaddress.ip_address: the family
(IPv4 when built from an integer below 2 to the 32) and the integer
value. -/
structure IPAddr where
  isV4 : Bool
  val : Nat
deriving DecidableEq

/-- ipaddress.ip_address applied to an integer: IPv4 for values below
2 to the 32, IPv6 for values below 2 to the 128, ValueError above. -/
def ip_address (n : Nat) : Except PyError IPAddr :=
  if n < 2 ^ 32 then .ok ⟨true, n⟩
  else if n < 2 ^ 128 then .ok ⟨false, n⟩
  else .error .valueError

/-- Modelled from the spec: IPv4 is_private of the external ipaddress
collaborator library (not part of this repository), the RFC1918
private ranges 10/8, 172.16/12 and 192.168/16 named by the source
comment in reportable_ip. -/
def is_private4 (n : Nat) : Bool :=
  decide ((10 * 2 ^ 24 ≤ n ∧ n < 11 * 2 ^ 24) ∨
          (0xAC100000 ≤ n ∧ n < 0xAC200000) ∨
          (0xC0A80000 ≤ n ∧ n < 0xC0A90000))

/-- Modelled from the spec: IPv4 is_loopback (127/8). -/
def is_loopback4 (n : Nat) : Bool :=
  decide (127 * 2 ^ 24 ≤ n ∧ n < 128 * 2 ^ 24)

/-- Modelled from the spec: IPv4 is_multicast (224/4). -/
def is_multicast4 (n : Nat) : Bool :=
  decide (0xE0000000 ≤ n ∧ n < 0xF0000000)

/-- Modelled from the spec: IPv4 is_unspecified (0.0.0.0). -/
def is_unspecified4 (n : Nat) : Bool :=
  decide (n = 0)

/-- Modelled from the spec: IPv4 is_link_local (169.254/16). -/
def is_link_local4 (n : Nat) : Bool :=
  decide (0xA9FE0000 ≤ n ∧ n < 0xA9FF0000)

/-- Modelled from the spec: IPv4 is_reserved (240/4). -/
def is_reserved4 (n : Nat) : Bool :=
  decide (0xF0000000 ≤ n ∧ n < 2 ^ 32)

/-- Modelled from the spec: IPv6 is_private (unique local fc00::/7). -/
def is_private6 (n : Nat) : Bool :=
  decide (n / 2 ^ 121 = 126)

/-- Modelled from the spec: IPv6 is_loopback (::1). -/
def is_loopback6 (n : Nat) : Bool :=
  decide (n = 1)

/-- Modelled from the spec: IPv6 is_multicast (ff00::/8). -/
def is_multicast6 (n : Nat) : Bool :=
  decide (n / 2 ^ 120 = 255)

/-- Modelled from the spec: IPv6 is_unspecified (::). -/
def is_unspecified6 (n : Nat) : Bool :=
  decide (n = 0)

/-- Modelled from the spec: IPv6 is_site_local (fec0::/10). -/
def is_site_local6 (n : Nat) : Bool :=
  decide (n / 2 ^ 118 = 1019)

/-- Modelled from the spec: IPv6 is_link_local (fe80::/10). -/
def is_link_local6 (n : Nat) : Bool :=
  decide (n / 2 ^ 118 = 1018)

/-- Modelled from the spec: IPv6 is_reserved, the reserved network
list of the ipaddress library (::/8, 100::/8, 200::/7, 400::/6,
800::/5, 1000::/4, 4000::/3, 6000::/3, 8000::/3, A000::/3, C000::/3,
E000::/4, F000::/5, F800::/6, FE00::/9). -/
def is_reserved6 (n : Nat) : Bool :=
  decide (n / 2 ^ 120 = 0 ∨ n / 2 ^ 120 = 1 ∨ n / 2 ^ 121 = 1 ∨
          n / 2 ^ 122 = 1 ∨ n / 2 ^ 123 = 1 ∨ n / 2 ^ 124 = 1 ∨
          n / 2 ^ 125 = 2 ∨ n / 2 ^ 125 = 3 ∨ n / 2 ^ 125 = 4 ∨
          n / 2 ^ 125 = 5 ∨ n / 2 ^ 125 = 6 ∨ n / 2 ^ 124 = 14 ∨
          n / 2 ^ 123 = 30 ∨ n / 2 ^ 122 = 62 ∨ n / 2 ^ 119 = 508)

/-- The reportable_ip check of src/rps/report.py lines 195-213, as a
Bool (True when every assert passes).  The individual address
classification predicates live in the external ipaddress or ipaddr
collaborator library; see the Modelled from the spec comments above.
IPv4 addresses skip the site-local check (AttributeError is caught
in the source). -/
def reportable_ip (a : IPAddr) : Bool :=
  if a.isV4 then
    !(is_private4 a.val || is_loopback4 a.val || is_multicast4 a.val ||
      is_unspecified4 a.val || is_link_local4 a.val || is_reserved4 a.val)
  else
    !(is_private6 a.val || is_loopback6 a.val || is_multicast6 a.val ||
      is_unspecified6 a.val || is_site_local6 a.val ||
      is_link_local6 a.val || is_reserved6 a.val)

/-- An IPEvent object (src/rps/report.py class IPEvent), unified with
its subclass RepeatedIPEvent: rep is none for a plain IPEvent and
some value for a RepeatedIPEvent (whose repeat attribute it is). -/
structure IPEvent where
  address : IPAddr
  event : String
  rep : Option PyVal
deriving DecidableEq

/-- IPEvent.__init__: normalises the address through ip_address (the
identity on an existing address object) and asserts reportable_ip. -/
def IPEvent_init (a : IPAddr) (ev : String) : Except PyError IPEvent :=
  if reportable_ip a then .ok ⟨a, ev, none⟩ else .error .assertionError

/-- RepeatedIPEvent.__init__ (src/rps/report.py lines 518-522): runs
IPEvent.__init__ (the eligibility assert) and then asserts that the
repeat compares greater than or equal to two; no upper bound is
checked. -/
def RepeatedIPEvent_init (a : IPAddr) (ev : String) (rp : PyVal) :
    Except PyError IPEvent :=
  match IPEvent_init a ev with
  | .error e => .error e
  | .ok base => if pyGe2 rp then .ok ⟨base.address, base.event, some rp⟩
                else .error .assertionError

/-- Big-endian bytes of a value, n bytes wide (the packed attribute
of an address object; 4 bytes for IPv4, 16 for IPv6). -/
def beBytes (n : Nat) (v : Nat) : List Nat :=
  (List.range n).map (fun i => v / 256 ^ (n - 1 - i) % 256)

/-- The packed attribute of an address object. -/
def IPAddr.packed (a : IPAddr) : List Nat :=
  if a.isV4 then beBytes 4 a.val else beBytes 16 a.val

/-- The address reconstruction of IPEvent.from_bytes: the byte string
is reversed, enumerated, and summed as part times 2 to the (8 times
index) - the big-endian integer value of the bytes. -/
def addrFromBytes (bs : List Nat) : Nat :=
  (bs.reverse.enum).foldl (fun acc p => acc + p.2 * 2 ^ (8 * p.1)) 0

/-- IPEvent.__str__: the packed address followed by the one-byte
EVENTS index of the event (ValueError when the event kind is not in
EVENTS); for a RepeatedIPEvent (rep present), RepeatedIPEvent.__str__
packs the event index and the repeat as two unsigned bytes
(struct.error when the repeat is not an int in [0, 255]). -/
def IPEvent_str (e : IPEvent) : Except PyError (List Nat) :=
  match EVENTS.findIdx? (· = e.event) with
  | none => .error .valueError
  | some i =>
    match e.rep with
    | none => .ok (e.address.packed ++ [i])
    | some (.int v) =>
        if 0 ≤ v ∧ v ≤ 255 then .ok (e.address.packed ++ [i, v.toNat])
        else .error .structError
    | some (.str _) => .error .structError

/-- IPEvent.from_bytes (src/rps/report.py lines 447-460): the event
kind is read from the last byte as an EVENTS index (IndexError when
out of range), the address from the remaining bytes, and the result
is built through IPEvent.__init__ (so the eligibility assert runs
again on the server side). -/
def IPEvent_from_bytes (bs : List Nat) : Except PyError IPEvent :=
  match bs.getLast? with
  | none => .error .indexError
  | some lb =>
    if lb < EVENTS.length then
      match ip_address (addrFromBytes bs.dropLast) with
      | .error e => .error e
      | .ok a => IPEvent_init a (EVENTS.getD lb "")
    else .error .indexError

/-- RepeatedIPEvent.from_bytes (src/rps/report.py lines 533-548): the
event is read from the LAST byte and the repeat from the SECOND TO
LAST byte - the reverse of the order written by __str__ - and the
repeat is looked up in EVENTS (yielding a str, with IndexError for
bytes at or above 12) instead of being taken as an unsigned number. -/
def RepeatedIPEvent_from_bytes (bs : List Nat) : Except PyError IPEvent :=
  match bs.getLast? with
  | none => .error .indexError
  | some lb =>
    if lb < EVENTS.length then
      match bs.dropLast.getLast? with
      | none => .error .indexError
      | some sb =>
        if sb < EVENTS.length then
          match ip_address (addrFromBytes bs.dropLast.dropLast) with
          | .error e => .error e
          | .ok a =>
              RepeatedIPEvent_init a (EVENTS.getD lb "")
                (.str (EVENTS.getD sb ""))
        else .error .indexError
    else .error .indexError

/-- The subreport classes of the FORMATS registry (the concrete
SubReport subclasses of src/rps/report.py with a non-None format). -/
inductive SubClass where
  | endOfReport
  | ipv4Events
  | ipv6Events
  | repeatedIPv4Events
  | repeatedIPv6Events
  | softwareName
  | softwareVersion
  | endUser
deriving DecidableEq

/-- The FORMATS registry (src/rps/report.py lines 668-670): format
tag to class.  Tag 5 is absent.  Lookup of an absent tag is the
KeyError branch of process_subreports. -/
def FORMATS : Nat → Option SubClass
  | 0 => some .endOfReport
  | 1 => some .ipv4Events
  | 2 => some .ipv6Events
  | 3 => some .repeatedIPv4Events
  | 4 => some .repeatedIPv6Events
  | 6 => some .softwareName
  | 7 => some .softwareVersion
  | 8 => some .endUser
  | _ => none

/-- The length class attribute of each registry class.  SubReport
itself sets length = None; IPv4Events, IPv6Events and
RepeatedIPv4Events override it with 5, 17 and 6.  RepeatedIPv6Events
does NOT: the source (line 603) assigns repeat = 18 instead, so its
length stays None.  The StringReport subclasses and EndOfReport never
override it either. -/
def classLength : SubClass → Option Nat
  | .ipv4Events => some 5
  | .ipv6Events => some 17
  | .repeatedIPv4Events => some 6
  | _ => none

/-- The stray class attribute assigned by RepeatedIPv6Events
(src/rps/report.py line 603): repeat = 18 where every sibling class
assigns length. -/
def RepeatedIPv6Events_repeat : Nat := 18

/-- Membership in the tuple (IPv4Events, RepeatedIPv4Events,
IPv6Events, RepeatedIPv6Events) tested by process_subreports
line 351. -/
def isEventClass : SubClass → Bool
  | .ipv4Events => true
  | .ipv6Events => true
  | .repeatedIPv4Events => true
  | .repeatedIPv6Events => true
  | _ => false

/-- The length validation of process_subreports lines 349-355.  For
the event classes Python evaluates length % report_class.length: for
RepeatedIPv6Events the class length is None, so the modulus raises
TypeError (uncaught).  For every other class Python evaluates
length == report_class.length, which is int == None, hence False,
so the assert raises AssertionError for every declared length. -/
def lengthCheck (c : SubClass) (l : Nat) : Except PyError Unit :=
  if isEventClass c then
    match classLength c with
    | none => .error .typeError
    | some w => if l % w = 0 then .ok () else .error .assertionError
  else
    match classLength c with
    | some w => if l = w then .ok () else .error .assertionError
    | none => .error .assertionError

/-- The value produced by a from_bytes call: an event list for the
event subreports, a value carrying subreport for the string classes,
or the EndOfReport instance. -/
inductive SubVal where
  | eventsVal (evs : List IPEvent)
  | softwareNameVal (v : List Nat)
  | softwareVersionVal (v : List Nat)
  | endUserVal (v : List Nat)
  | eorVal
deriving DecidableEq

/-- The while loop of IPEvents.from_bytes and
RepeatedEvents.from_bytes: slice off width-byte chunks and decode
each.  Structured with explicit fuel so the kernel can evaluate it;
call sites pass the length of the byte string, which suffices for
the widths 5, 17 and 6 in use (the zero-width and out-of-fuel
branches are unreachable there). -/
def chunkDecodeF (dec : List Nat → Except PyError IPEvent) :
    Nat → Nat → List Nat → Except PyError (List IPEvent)
  | _, _, [] => .ok []
  | 0, _, _ :: _ => .error .typeError
  | _ + 1, 0, _ :: _ => .error .typeError
  | fuel + 1, w + 1, b :: bs =>
    match dec ((b :: bs).take (w + 1)) with
    | .error e => .error e
    | .ok ev =>
      match chunkDecodeF dec fuel (w + 1) ((b :: bs).drop (w + 1)) with
      | .error e => .error e
      | .ok evs => .ok (ev :: evs)

/-- Chunked decoding with the fuel fixed to the byte string length. -/
def chunkDecode (w : Nat) (dec : List Nat → Except PyError IPEvent)
    (bs : List Nat) : Except PyError (List IPEvent) :=
  chunkDecodeF dec bs.length w bs

/-- Dispatch of report_class.from_bytes(bytestr) in
process_subreports line 357.
EndOfReport.from_bytes asserts the byte string is empty.
The event classes run the chunked loop with their class length.
RepeatedIPv6Events: unreachable, because the length check raised
TypeError first; were it reached, the Python loop would not
terminate (the slice width cls.length is None), so the case is
closed off with the same TypeError.
StringReport.from_bytes calls struct.unpack on the BUILTIN bytes (a
type object) instead of the bytestr argument, which raises TypeError
unconditionally; also unreachable, because the length check raised
AssertionError first. -/
def sub_from_bytes (c : SubClass) (bs : List Nat) :
    Except PyError SubVal :=
  match c with
  | .endOfReport => if bs = [] then .ok .eorVal else .error .assertionError
  | .ipv4Events =>
    match chunkDecode 5 IPEvent_from_bytes bs with
    | .error e => .error e
    | .ok evs => .ok (.eventsVal evs)
  | .ipv6Events =>
    match chunkDecode 17 IPEvent_from_bytes bs with
    | .error e => .error e
    | .ok evs => .ok (.eventsVal evs)
  | .repeatedIPv4Events =>
    match chunkDecode 6 RepeatedIPEvent_from_bytes bs with
    | .error e => .error e
    | .ok evs => .ok (.eventsVal evs)
  | .repeatedIPv6Events => .error .typeError
  | .softwareName => .error .typeError
  | .softwareVersion => .error .typeError
  | .endUser => .error .typeError

/-- The result of process_subreports: the state of the caller-owned
events list at return or raise time, and either the
(software_name, software_version, end_user) triple or the exception
that propagated. -/
def PResult : Type :=
  List IPEvent ×
    Except PyError (Option (List Nat) × Option (List Nat) × Option (List Nat))

instance {ε α : Type} [DecidableEq ε] [DecidableEq α] :
    DecidableEq (Except ε α) := fun x y =>
  match x, y with
  | .ok a, .ok b =>
    if h : a = b then .isTrue (by rw [h])
    else .isFalse (by intro c; cases c; exact h rfl)
  | .error a, .error b =>
    if h : a = b then .isTrue (by rw [h])
    else .isFalse (by intro c; cases c; exact h rfl)
  | .ok _, .error _ => .isFalse (by intro c; cases c)
  | .error _, .ok _ => .isFalse (by intro c; cases c)

instance :
    DecidableEq
      (Except PyError
        (Option (List Nat) × Option (List Nat) × Option (List Nat))) :=
  inferInstance

instance : DecidableEq PResult := by
  unfold PResult; infer_instance

/-- One step of RequestHandler.process_subreports (src/rps/report.py
lines 325-371), parameterised by the recursive call.
With fewer than three bytes, struct.unpack("!BH", ...) raises
struct.error, which is caught: the current values are returned (the
report is given up on but not rejected).
An unknown format tag skips length bytes of payload and either
returns (nothing left) or recurses.
A known tag runs the length check, slices the payload, decodes it,
stores string values into the respective field (overwriting), or
extends the events list; the EndOfReport value would reach
events.extend and raise AttributeError (unreachable: its length
check always fails first).  Processing continues while the remainder
is nonempty and differs from the single terminator byte. -/
def process_step
    (rec : List Nat → List IPEvent → Option (List Nat) →
      Option (List Nat) → Option (List Nat) → PResult)
    (s : List Nat) (events : List IPEvent)
    (sn sv eu : Option (List Nat)) : PResult :=
  match s with
  | b0 :: b1 :: b2 :: s2 =>
    let l := 256 * b1 + b2
    match FORMATS b0 with
    | none =>
      if s2.drop l = [] then (events, .ok (sn, sv, eu))
      else rec (s2.drop l) events sn sv eu
    | some c =>
      match lengthCheck c l with
      | .error e => (events, .error e)
      | .ok _ =>
        match sub_from_bytes c (s2.take l) with
        | .error e => (events, .error e)
        | .ok sub =>
          let rest := s2.drop l
          let step := fun (events2 : List IPEvent)
              (sn2 sv2 eu2 : Option (List Nat)) =>
            if rest ≠ [] ∧ rest ≠ [0] then rec rest events2 sn2 sv2 eu2
            else (events2, .ok (sn2, sv2, eu2))
          match sub with
          | .softwareNameVal v => step events (some v) sv eu
          | .softwareVersionVal v => step events sn (some v) eu
          | .endUserVal v => step events sn sv (some v)
          | .eorVal => (events, .error .attributeError)
          | .eventsVal evs => step (events ++ evs) sn sv eu
  | _ => (events, .ok (sn, sv, eu))

/-- process_subreports with explicit fuel; each recursive call of
the source consumes at least three bytes, so fuel equal to the
stream length is always sufficient (the fuel-zero base only fires on
streams of fewer than three bytes, where it coincides with the
struct.error branch of process_step). -/
def process_fuel :
    Nat → List Nat → List IPEvent → Option (List Nat) →
      Option (List Nat) → Option (List Nat) → PResult
  | 0, _, events, sn, sv, eu => (events, .ok (sn, sv, eu))
  | f + 1, s, events, sn, sv, eu => process_step (process_fuel f) s events sn sv eu

/-- RequestHandler.process_subreports (src/rps/report.py lines
325-371). -/
def process_subreports (s : List Nat) (events : List IPEvent)
    (sn sv eu : Option (List Nat)) : PResult :=
  process_fuel s.length s events sn sv eu

/-- Strict UTF-8 validity of a byte sequence, as required by the
str.decode("utf8") call on the username (an invalid sequence raises
UnicodeDecodeError, which the handler does not catch). -/
def isValidUtf8 : List Nat → Bool
  | [] => true
  | b :: bs =>
    if b < 0x80 then isValidUtf8 bs
    else if 0xC2 ≤ b ∧ b ≤ 0xDF then
      match bs with
      | c1 :: bs2 => decide (0x80 ≤ c1 ∧ c1 ≤ 0xBF) && isValidUtf8 bs2
      | [] => false
    else if 0xE0 ≤ b ∧ b ≤ 0xEF then
      match bs with
      | c1 :: c2 :: bs2 =>
        (decide ((b = 0xE0 ∧ 0xA0 ≤ c1 ∧ c1 ≤ 0xBF) ∨
                 (0xE1 ≤ b ∧ b ≤ 0xEC ∧ 0x80 ≤ c1 ∧ c1 ≤ 0xBF) ∨
                 (b = 0xED ∧ 0x80 ≤ c1 ∧ c1 ≤ 0x9F) ∨
                 (0xEE ≤ b ∧ b ≤ 0xEF ∧ 0x80 ≤ c1 ∧ c1 ≤ 0xBF)) &&
         decide (0x80 ≤ c2 ∧ c2 ≤ 0xBF)) && isValidUtf8 bs2
      | _ => false
    else if 0xF0 ≤ b ∧ b ≤ 0xF4 then
      match bs with
      | c1 :: c2 :: c3 :: bs2 =>
        (decide ((b = 0xF0 ∧ 0x90 ≤ c1 ∧ c1 ≤ 0xBF) ∨
                 (0xF1 ≤ b ∧ b ≤ 0xF3 ∧ 0x80 ≤ c1 ∧ c1 ≤ 0xBF) ∨
                 (b = 0xF4 ∧ 0x80 ≤ c1 ∧ c1 ≤ 0x8F)) &&
         decide (0x80 ≤ c2 ∧ c2 ≤ 0xBF) && decide (0x80 ≤ c3 ∧ c3 ≤ 0xBF)) &&
        isValidUtf8 bs2
      | _ => false
    else false

/-- Big-endian integer value of a byte list (struct.unpack("!I", ...)
on the four timestamp bytes). -/
def beNat (bs : List Nat) : Nat :=
  bs.foldl (fun acc b => acc * 256 + b) 0

/-- The shared server state: the replay set recent_reports (a set of
(timestamp, nonce) pairs, here a duplicate-free list) and the
processed report counter. -/
structure ServerState where
  recent_reports : List (Nat × List Nat)
  report_count : Nat
deriving DecidableEq

/-- The outcome of one RequestHandler.handle invocation.  Every
discarded variant is a logged early return; accepted is the
handle_events sink invocation with its arguments; uncaught marks an
exception that propagates out of handle (only AssertionError from
subreport processing is caught there). -/
inductive HandleResult where
  | discardedInvalid
  | discardedVersion
  | discardedNoPassword
  | discardedBadHmac
  | discardedEmpty
  | discardedStale
  | discardedReplay
  | discardedBadSubreport (events : List IPEvent)
  | uncaught (e : PyError)
  | accepted (username : List Nat) (events : List IPEvent)
      (sn sv eu : Option (List Nat))
deriving DecidableEq

/-- The slicing of handle line 238/241: at most 320000 bytes are read,
then the body is everything but the trailing ten bytes. -/
def report_body (r : List Nat) : List Nat :=
  (r.take 320000).take ((r.take 320000).length - 10)

/-- The trailing ten bytes, the claimed HMAC tag (the whole datagram
when shorter than ten bytes, as in Python slicing). -/
def report_footer (r : List Nat) : List Nat :=
  (r.take 320000).drop ((r.take 320000).length - 10)

/-- The version byte (report[0]). -/
def report_version (r : List Nat) : Nat :=
  (report_body r).getD 0 0

/-- The username length byte (ord(report[1])). -/
def report_ulen (r : List Nat) : Nat :=
  (report_body r).getD 1 0

/-- The username bytes. -/
def report_username (r : List Nat) : List Nat :=
  ((report_body r).drop 2).take (report_ulen r)

/-- What remains after the username: nonce, timestamp, subreports. -/
def report_rest (r : List Nat) : List Nat :=
  ((report_body r).drop 2).drop (report_ulen r)

/-- The eight random nonce bytes. -/
def report_nonce (r : List Nat) : List Nat :=
  (report_rest r).take 8

/-- The 32-bit big-endian timestamp. -/
def report_ts (r : List Nat) : Nat :=
  beNat (((report_rest r).drop 8).take 4)

/-- The subreport byte stream. -/
def report_subs (r : List Nat) : List Nat :=
  (report_rest r).drop 12

/-- The probabilistic replay sweep of handle lines 290-304: when the
random trigger fires, every entry whose timestamp is more than 120
seconds in the past is removed. -/
def sweep_reports (now : Int) (doSweep : Bool)
    (l : List (Nat × List Nat)) : List (Nat × List Nat) :=
  if doSweep then l.filter (fun p => decide (now - (p.1 : Int) ≤ 120)) else l

/-- Set insertion for recent_reports.add. -/
def add_report (p : Nat × List Nat) (l : List (Nat × List Nat)) :
    List (Nat × List Nat) :=
  if p ∈ l then l else p :: l

/-- RequestHandler.handle (src/rps/report.py lines 233-323) as a pure
function of the collaborators: hm is the truncatable HMAC-SHA1 of the
external hmac/hashlib libraries (key, message to digest bytes), pw is
the subclass-provided get_password, now the current time, doSweep the
outcome of the random sweep trigger.  Stage order follows the source:
framing, username unpack and decode, version, password lookup, HMAC
comparison, empty-body check, freshness (only the past direction is
tested: time.time() - timestamp > 120), replay lookup, sweep, replay
insertion, subreport processing (catching AssertionError only), and
finally the handle_events sink call and counter increment. -/
def handle (hm : List Nat → List Nat → List Nat)
    (pw : List Nat → Option (List Nat)) (now : Int) (doSweep : Bool)
    (st : ServerState) (r : List Nat) : ServerState × HandleResult :=
  if (report_body r).length < 2 then (st, .discardedInvalid)
  else if (report_username r).length ≠ report_ulen r then
    (st, .uncaught .structError)
  else if ¬ isValidUtf8 (report_username r) then
    (st, .uncaught .unicodeDecodeError)
  else if report_version r ≠ VERSION then (st, .discardedVersion)
  else
    match pw (report_username r) with
    | none => (st, .discardedNoPassword)
    | some password =>
      if password = [] then (st, .discardedNoPassword)
      else if (hm password (report_body r)).take 10 ≠ report_footer r then
        (st, .discardedBadHmac)
      else if report_subs r = [] then (st, .discardedEmpty)
      else if now - (report_ts r : Int) > 120 then (st, .discardedStale)
      else if (report_ts r, report_nonce r) ∈ st.recent_reports then
        (st, .discardedReplay)
      else
        let recent2 := add_report (report_ts r, report_nonce r)
          (sweep_reports now doSweep st.recent_reports)
        match process_subreports (report_subs r) [] none none none with
        | (evs, .error .assertionError) =>
          (⟨recent2, st.report_count⟩, .discardedBadSubreport evs)
        | (_, .error e) => (⟨recent2, st.report_count⟩, .uncaught e)
        | (evs, .ok (sn, sv, eu)) =>
          (⟨recent2, st.report_count + 1⟩,
           .accepted (report_username r) evs sn sv eu)

/-- The client-side subreport objects (instances held in
ReportClient.events plus the metadata instances appended by
send_report). -/
inductive SubR where
  | ipv4Events (evs : List IPEvent)
  | ipv6Events (evs : List IPEvent)
  | repeatedIPv4Events (evs : List IPEvent)
  | repeatedIPv6Events (evs : List IPEvent)
  | softwareName (v : List Nat)
  | softwareVersion (v : List Nat)
  | endUser (v : List Nat)
  | endOfReport
deriving DecidableEq

/-- The maximum_length class attribute of the StringReport
subclasses. -/
def maximumLength : SubClass → Nat
  | .softwareName => 64
  | _ => 32

/-- StringReport.__init__: encodes (identity here, values are already
bytes) and asserts the length is below maximum_length. -/
def StringReport_init (c : SubClass) (v : List Nat) :
    Except PyError (List Nat) :=
  if v.length < maximumLength c then .ok v else .error .assertionError

/-- Sequential encoding of an event list ("".join of the event str
values); the first exception propagates. -/
def encodeEventList : List IPEvent → Except PyError (List Nat)
  | [] => .ok []
  | e :: es =>
    match IPEvent_str e with
    | .error err => .error err
    | .ok b =>
      match encodeEventList es with
      | .error err => .error err
      | .ok bs => .ok (b ++ bs)

/-- IPEvents.__str__ and RepeatedEvents.__str__: the three-byte
preamble packs the format and self.length * len(self.events) as
"!BH" (struct.error above 65535; TypeError for RepeatedIPv6Events,
whose class length is None), followed by the event encodings. -/
def eventsContainer_str (fmt : Nat) (w : Option Nat)
    (evs : List IPEvent) : Except PyError (List Nat) :=
  match w with
  | none => .error .typeError
  | some w0 =>
    if w0 * evs.length ≤ 65535 then
      match encodeEventList evs with
      | .error e => .error e
      | .ok body =>
        .ok ([fmt, w0 * evs.length / 256, w0 * evs.length % 256] ++ body)
    else .error .structError

/-- str(subreport) for each subreport class.  EndOfReport is the
single byte 0.  StringReport.__str__ is struct.pack("!Bp", format,
value): the bare "p" has count one, so it packs a single length byte
of zero and DROPS the value entirely. -/
def subR_str : SubR → Except PyError (List Nat)
  | .ipv4Events evs => eventsContainer_str 1 (some 5) evs
  | .ipv6Events evs => eventsContainer_str 2 (some 17) evs
  | .repeatedIPv4Events evs => eventsContainer_str 3 (some 6) evs
  | .repeatedIPv6Events evs => eventsContainer_str 4 none evs
  | .softwareName _ => .ok [6, 0]
  | .softwareVersion _ => .ok [7, 0]
  | .endUser _ => .ok [8, 0]
  | .endOfReport => .ok [0]

/-- Sequential encoding of the subreport list. -/
def encodeSubRs : List SubR → Except PyError (List Nat)
  | [] => .ok []
  | s :: ss =>
    match subR_str s with
    | .error e => .error e
    | .ok b =>
      match encodeSubRs ss with
      | .error e => .error e
      | .ok bs => .ok (b ++ bs)

/-- isinstance(subreport, SoftwareName). -/
def isSoftwareNameR : SubR → Bool
  | .softwareName _ => true
  | _ => false

/-- isinstance(subreport, SoftwareVersion). -/
def isSoftwareVersionR : SubR → Bool
  | .softwareVersion _ => true
  | _ => false

/-- ReportClient.generate_report (src/rps/report.py lines 113-160):
the asserts (nonempty subreport list, at most one software name, at
most one software version, version implies name, username below 64
bytes), then the header pack (version byte, pascal-counted username,
eight random bytes, 32-bit timestamp - struct.error when the
timestamp exceeds 32 bits), the joined subreport encodings, and the
ten-byte truncated HMAC footer. -/
def generate_report (hm : List Nat → List Nat → List Nat)
    (randB : List Nat) (now : Nat) (subreports : List SubR)
    (username password : List Nat) : Except PyError (List Nat) :=
  if subreports = [] then .error .assertionError
  else if 1 < (subreports.filter isSoftwareNameR).length then
    .error .assertionError
  else if 1 < (subreports.filter isSoftwareVersionR).length then
    .error .assertionError
  else if (subreports.filter isSoftwareVersionR).length ≠ 0 ∧
      (subreports.filter isSoftwareNameR).length = 0 then
    .error .assertionError
  else if ¬ username.length < 64 then .error .assertionError
  else if ¬ now < 2 ^ 32 then .error .structError
  else
    let header :=
      [VERSION, username.length] ++ username ++ randB.take 8 ++ beBytes 4 now
    match encodeSubRs subreports with
    | .error e => .error e
    | .ok body =>
      .ok (header ++ body ++ (hm password (header ++ body)).take 10)

/-- The subreport object list built by send_report: the pending
events, then SoftwareName, SoftwareVersion and EndUser instances for
each truthy (non-None, nonempty) metadata string - their
constructors can raise - and the EndOfReport terminator. -/
def buildSubreports (sn sv eu : Option (List Nat)) (events : List SubR) :
    Except PyError (List SubR) :=
  match (match sn with
         | some v =>
           if v ≠ [] then
             match StringReport_init .softwareName v with
             | .error e => Except.error e
             | .ok v2 => .ok (events ++ [SubR.softwareName v2])
           else .ok events
         | none => .ok events) with
  | .error e => .error e
  | .ok l1 =>
    match (match sv with
           | some v =>
             if v ≠ [] then
               match StringReport_init .softwareVersion v with
               | .error e => Except.error e
               | .ok v2 => .ok (l1 ++ [SubR.softwareVersion v2])
             else .ok l1
           | none => .ok l1) with
    | .error e => .error e
    | .ok l2 =>
      match (match eu with
             | some v =>
               if v ≠ [] then
                 match StringReport_init .endUser v with
                 | .error e => Except.error e
                 | .ok v2 => .ok (l2 ++ [SubR.endUser v2])
               else .ok l2
             | none => .ok l2) with
      | .error e => .error e
      | .ok l3 => .ok (l3 ++ [SubR.endOfReport])

/-- The full client pipeline of send_report up to the point where the
report bytes exist: build the subreport objects, then
generate_report. -/
def client_report (hm : List Nat → List Nat → List Nat)
    (randB : List Nat) (now : Nat) (username password : List Nat)
    (sn sv eu : Option (List Nat)) (events : List SubR) :
    Except PyError (List Nat) :=
  match buildSubreports sn sv eu events with
  | .error e => .error e
  | .ok subs => generate_report hm randB now subs username password

/-- The observable outcome of one send_report call: the events buffer
afterwards, the bytes handed to the transport (none when no send was
attempted), and the exception that propagated, if any. -/
structure SendOutcome where
  events : List SubR
  attempted : Option (List Nat)
  err : Option PyError
deriving DecidableEq

/-- ReportClient.send_report (src/rps/report.py lines 162-188): build
the report; when force is false and the report is shorter than 400
bytes, return without touching anything; otherwise hand the bytes to
the transport (socket.sendto), and clear the events buffer exactly
when the transport reports that the full length was sent
(socket.error is caught and logged, keeping the buffer). -/
def send_report (hm : List Nat → List Nat → List Nat)
    (randB : List Nat) (now : Nat)
    (transport : List Nat → Except Unit Nat)
    (username password : List Nat) (sn sv eu : Option (List Nat))
    (events : List SubR) (force : Bool) : SendOutcome :=
  match client_report hm randB now username password sn sv eu events with
  | .error e => ⟨events, none, some e⟩
  | .ok report =>
    if ¬ force ∧ report.length < 400 then ⟨events, none, none⟩
    else
      match transport report with
      | .error _ => ⟨events, some report, none⟩
      | .ok sent =>
        ⟨if sent = report.length then [] else events, some report, none⟩

/-- process_step only consults its recursive-call argument on streams
at least three bytes shorter than its input. -/
theorem process_step_congr
    (r1 r2 : List Nat → List IPEvent → Option (List Nat) →
      Option (List Nat) → Option (List Nat) → PResult)
    (s : List Nat) (events : List IPEvent) (sn sv eu : Option (List Nat))
    (h : ∀ t evs2 a b c, t.length + 3 ≤ s.length →
      r1 t evs2 a b c = r2 t evs2 a b c) :
    process_step r1 s events sn sv eu = process_step r2 s events sn sv eu := by
  match s with
  | [] => rfl
  | [_] => rfl
  | [_, _] => rfl
  | b0 :: b1 :: b2 :: s2 =>
    have hlen : ∀ l : Nat,
        (s2.drop l).length + 3 ≤ (b0 :: b1 :: b2 :: s2).length := by
      intro l; simp [List.length_drop]
    simp only [process_step]
    repeat' split
    all_goals first | rfl | exact h _ _ _ _ _ (hlen _)

/-- The fuel argument of process_fuel is irrelevant once it reaches
the stream length. -/
theorem process_fuel_irrel :
    ∀ f g s events sn sv eu, s.length ≤ f → s.length ≤ g →
      process_fuel f s events sn sv eu = process_fuel g s events sn sv eu := by
  intro f
  induction f with
  | zero =>
    intro g s events sn sv eu hf _
    have hs : s = [] := List.length_eq_zero.mp (Nat.le_zero.mp hf)
    subst hs
    cases g with
    | zero => rfl
    | succ g => rfl
  | succ f ih =>
    intro g s events sn sv eu hf hg
    cases g with
    | zero =>
      have hs : s = [] := List.length_eq_zero.mp (Nat.le_zero.mp hg)
      subst hs
      rfl
    | succ g =>
      simp only [process_fuel]
      apply process_step_congr
      intro t evs2 a b c ht
      exact ih g t evs2 a b c (by omega) (by omega)

/-- The unfolding equation of process_subreports: one source-level
step, with the recursive occurrences again process_subreports. -/
theorem process_subreports_eq (s : List Nat) (events : List IPEvent)
    (sn sv eu : Option (List Nat)) :
    process_subreports s events sn sv eu =
      process_step (fun t evs2 a b c => process_subreports t evs2 a b c)
        s events sn sv eu := by
  unfold process_subreports
  cases hs : s.length with
  | zero =>
    have h0 : s = [] := List.length_eq_zero.mp hs
    subst h0
    rfl
  | succ n =>
    simp only [process_fuel]
    apply process_step_congr
    intro t evs2 a b c ht
    exact process_fuel_irrel n t.length t evs2 a b c (by omega) (by omega)

/-- Any event built by IPEvent.__init__ passed the eligibility
assert. -/
theorem IPEvent_init_reportable {a : IPAddr} {ev : String} {e : IPEvent}
    (h : IPEvent_init a ev = .ok e) : reportable_ip e.address = true := by
  unfold IPEvent_init at h
  split at h
  · rename_i hrep; cases h; exact hrep
  · cases h

/-- Any event built by RepeatedIPEvent.__init__ passed the
eligibility assert. -/
theorem RepeatedIPEvent_init_reportable {a : IPAddr} {ev : String}
    {rp : PyVal} {e : IPEvent} (h : RepeatedIPEvent_init a ev rp = .ok e) :
    reportable_ip e.address = true := by
  unfold RepeatedIPEvent_init at h
  split at h
  · cases h
  · rename_i base hbase
    split at h
    · cases h
      show reportable_ip base.address = true
      exact IPEvent_init_reportable hbase
    · cases h

/-- Any event built by IPEvent.from_bytes passed the eligibility
assert of IPEvent.__init__. -/
theorem IPEvent_from_bytes_reportable {bs : List Nat} {e : IPEvent}
    (h : IPEvent_from_bytes bs = .ok e) : reportable_ip e.address = true := by
  unfold IPEvent_from_bytes at h
  repeat' split at h
  all_goals first | cases h | exact IPEvent_init_reportable h

/-- Any event built by RepeatedIPEvent.from_bytes passed the
eligibility assert. -/
theorem RepeatedIPEvent_from_bytes_reportable {bs : List Nat} {e : IPEvent}
    (h : RepeatedIPEvent_from_bytes bs = .ok e) :
    reportable_ip e.address = true := by
  unfold RepeatedIPEvent_from_bytes at h
  repeat' split at h
  all_goals first | cases h | exact RepeatedIPEvent_init_reportable h

/-- The chunked decode loop only yields events produced by its
per-record decoder. -/
theorem chunkDecodeF_reportable
    (dec : List Nat → Except PyError IPEvent)
    (hdec : ∀ bs e, dec bs = .ok e → reportable_ip e.address = true) :
    ∀ fuel w bs l, chunkDecodeF dec fuel w bs = .ok l →
      ∀ e ∈ l, reportable_ip e.address = true := by
  intro fuel
  induction fuel with
  | zero =>
    intro w bs l h e he
    match bs with
    | [] => simp [chunkDecodeF] at h; subst h; cases he
    | _ :: _ => simp [chunkDecodeF] at h
  | succ fuel ih =>
    intro w bs l h e he
    match w, bs with
    | _, [] => simp [chunkDecodeF] at h; subst h; cases he
    | 0, _ :: _ => simp [chunkDecodeF] at h
    | w + 1, b :: bs2 =>
      simp only [chunkDecodeF] at h
      split at h
      · cases h
      · rename_i ev hev
        split at h
        · cases h
        · rename_i evs hevs
          cases h
          cases he with
          | head => exact hdec _ _ hev
          | tail _ hmem => exact ih _ _ _ hevs e hmem

/-- Events extracted from a successfully decoded subreport all pass
the eligibility check. -/
theorem sub_from_bytes_reportable {c : SubClass} {bs : List Nat}
    {evs : List IPEvent} (h : sub_from_bytes c bs = .ok (.eventsVal evs)) :
    ∀ e ∈ evs, reportable_ip e.address = true := by
  cases c <;> simp only [sub_from_bytes] at h
  case endOfReport => split at h <;> simp_all
  case repeatedIPv6Events => cases h
  case softwareName => cases h
  case softwareVersion => cases h
  case endUser => cases h
  case ipv4Events =>
    split at h
    · cases h
    · rename_i l hl
      cases h
      exact chunkDecodeF_reportable _
        (fun _ _ hh => IPEvent_from_bytes_reportable hh) _ _ _ _ hl
  case ipv6Events =>
    split at h
    · cases h
    · rename_i l hl
      cases h
      exact chunkDecodeF_reportable _
        (fun _ _ hh => IPEvent_from_bytes_reportable hh) _ _ _ _ hl
  case repeatedIPv4Events =>
    split at h
    · cases h
    · rename_i l hl
      cases h
      exact chunkDecodeF_reportable _
        (fun _ _ hh => RepeatedIPEvent_from_bytes_reportable hh) _ _ _ _ hl

/-- The events list carried through process_fuel only ever grows by
decoded (hence eligibility-checked) events. -/
theorem process_fuel_reportable :
    ∀ f s events sn sv eu,
      (∀ e ∈ events, reportable_ip e.address = true) →
      ∀ e ∈ (process_fuel f s events sn sv eu).1,
        reportable_ip e.address = true := by
  intro f
  induction f with
  | zero => intro s events sn sv eu hev e he; exact hev e he
  | succ f ih =>
    intro s events sn sv eu hev e he
    match s with
    | [] => exact hev e he
    | [_] => exact hev e he
    | [_, _] => exact hev e he
    | b0 :: b1 :: b2 :: s2 =>
      simp only [process_fuel, process_step] at he
      split at he
      · split at he
        · exact hev e he
        · exact ih _ _ _ _ _ hev e he
      · split at he
        · exact hev e he
        · split at he
          · exact hev e he
          · rename_i sub hsub
            split at he
            all_goals
              first
              | exact hev e he
              | (split at he
                 · exact ih _ _ _ _ _ hev e he
                 · exact hev e he)
              | skip
            -- remaining: the eventsVal branch
            · rename_i evs
              have hnew : ∀ x ∈ events ++ evs,
                  reportable_ip x.address = true := by
                intro x hx
                rcases List.mem_append.mp hx with hx1 | hx2
                · exact hev x hx1
                · exact sub_from_bytes_reportable hsub x hx2
              split at he
              · exact ih _ _ _ _ _ hnew e he
              · exact hnew e he

/-- Any events list produced by process_subreports from an initially
empty events list consists of eligibility-checked events only. -/
theorem process_subreports_reportable {s : List Nat}
    {evs : List IPEvent}
    {res : Except PyError
      (Option (List Nat) × Option (List Nat) × Option (List Nat))}
    (h : process_subreports s [] none none none = (evs, res)) :
    ∀ e ∈ evs, reportable_ip e.address = true := by
  have hinv := process_fuel_reportable s.length s [] none none none
    (by intro x hx; cases hx)
  unfold process_subreports at h
  rw [h] at hinv
  exact hinv

/-- Every event handed to the sink by a successful handle run passed
the eligibility check. -/
theorem handle_accepted_reportable
    {hm : List Nat → List Nat → List Nat}
    {pw : List Nat → Option (List Nat)} {now : Int} {doSweep : Bool}
    {st st2 : ServerState} {r u : List Nat} {evs : List IPEvent}
    {sn sv eu : Option (List Nat)}
    (h : handle hm pw now doSweep st r = (st2, .accepted u evs sn sv eu)) :
    ∀ e ∈ evs, reportable_ip e.address = true := by
  unfold handle at h
  repeat' split at h
  all_goals simp_all
  rename_i heq
  intro e he
  exact process_subreports_reportable heq e (by simp_all)

/-- The inserted pair is a member of the updated replay set. -/
theorem mem_add_report (p : Nat × List Nat) (l : List (Nat × List Nat)) :
    p ∈ add_report p l := by
  unfold add_report
  split
  · assumption
  · exact List.mem_cons_self _ _

/-- C1: round-trip fails on the code.  For the valid construction
RepeatedIPEvent(8.8.8.8, GREYLISTED, 3), encoding yields the record
[8,8,8,8,1,3] but decoding that record swaps the event and repeat
bytes and looks the repeat up in EVENTS, producing
(8.8.8.8, AUTO-SPAM, "GREYLISTED") instead of the original; and for
the string subreports, from_bytes unpacks the builtin bytes type
instead of the byte string (always raising TypeError) while __str__
packs a bare pascal string that drops the value, so
decode(encode(x)) = x fails for these variants as well. -/
theorem c1_repeated_roundtrip_broken :
    IPEvent_str ⟨⟨true, 134744072⟩, "GREYLISTED", some (.int 3)⟩ =
      .ok [8, 8, 8, 8, 1, 3] ∧
    RepeatedIPEvent_from_bytes [8, 8, 8, 8, 1, 3] =
      .ok ⟨⟨true, 134744072⟩, "AUTO-SPAM", some (.str "GREYLISTED")⟩ ∧
    (⟨⟨true, 134744072⟩, "AUTO-SPAM", some (.str "GREYLISTED")⟩ : IPEvent) ≠
      ⟨⟨true, 134744072⟩, "GREYLISTED", some (.int 3)⟩ ∧
    (∀ bs : List Nat, sub_from_bytes .softwareName bs = .error .typeError) ∧
    subR_str (.softwareName [97, 98, 99]) = .ok [6, 0] :=
  ⟨by decide, by decide, by decide, fun _ => rfl, by decide⟩

/-- C6 counterexample: constructing a RepeatedIPEvent with repeat 256
(outside [2,255]) succeeds, refuting the claimed
success-iff-2-to-255 equivalence at a concrete input. -/
theorem c6_counterexample :
    RepeatedIPEvent_init ⟨true, 134744072⟩ "GREYLISTED" (.int 256) =
      .ok ⟨⟨true, 134744072⟩, "GREYLISTED", some (.int 256)⟩ ∧
    ¬ ((256 : Int) ≤ 255) :=
  ⟨by decide, by decide⟩

/-- C6 amended: for an eligible address, RepeatedIPEvent construction
with an integer repeat succeeds exactly when the repeat is at least
two; no upper bound is checked at construction time. -/
theorem c6_repeat_lower_bound_only (a : IPAddr) (ev : String) (r : Int)
    (h : reportable_ip a = true) :
    RepeatedIPEvent_init a ev (.int r) = .ok ⟨a, ev, some (.int r)⟩ ↔
      2 ≤ r := by
  unfold RepeatedIPEvent_init IPEvent_init
  rw [if_pos h]
  by_cases hr : 2 ≤ r
  · simp [pyGe2, hr]
  · simp [pyGe2, hr]

/-- C6 witness: the amended claim at address 8.8.8.8 and repeat 5. -/
theorem c6_witness :
    RepeatedIPEvent_init ⟨true, 134744072⟩ "GREYLISTED" (.int 5) =
      .ok ⟨⟨true, 134744072⟩, "GREYLISTED", some (.int 5)⟩ :=
  (c6_repeat_lower_bound_only ⟨true, 134744072⟩ "GREYLISTED" 5
    (by decide)).mpr (by decide)

/-- C2: the claim fails on the code.  The StringReport subclasses
never override the length class attribute (it stays None), so the
parser check length == report_class.length is False for EVERY
declared length: every report carrying a SoftwareName,
SoftwareVersion or EndUser subreport raises AssertionError and is
discarded, metadata is never set, and the exact-length rule is
unsatisfiable; concretely, a full report with a well-formed
three-byte SoftwareName subreport is discarded rather than
accepted. -/
theorem c2_string_subreports_always_rejected :
    (∀ (b1 b2 : Nat) (rest : List Nat) (events : List IPEvent)
       (sn sv eu : Option (List Nat)),
      process_subreports (6 :: b1 :: b2 :: rest) events sn sv eu =
        (events, .error .assertionError) ∧
      process_subreports (7 :: b1 :: b2 :: rest) events sn sv eu =
        (events, .error .assertionError) ∧
      process_subreports (8 :: b1 :: b2 :: rest) events sn sv eu =
        (events, .error .assertionError)) ∧
    handle (fun _ _ => List.replicate 20 0) (fun _ => some [1]) 1050 false
      ⟨[], 0⟩
      ([2, 0] ++ List.replicate 8 0 ++ [0, 0, 3, 232] ++
        [6, 0, 3, 97, 98, 99, 0] ++ List.replicate 10 0) =
      (⟨[(1000, [0, 0, 0, 0, 0, 0, 0, 0])], 0⟩, .discardedBadSubreport []) := by
  constructor
  · intro b1 b2 rest events sn sv eu
    refine ⟨?_, ?_, ?_⟩ <;>
      · rw [process_subreports_eq]
        simp [process_step, FORMATS, lengthCheck, isEventClass, classLength]
  · decide

/-- C3: the claim fails on the code.  The freshness test is
time.time() - timestamp > 120, which only rejects timestamps in the
past: a report whose timestamp is 200 seconds in the FUTURE
(|now - ts| = 200 > 120) is fully accepted and handed to the sink,
while one 121 seconds in the past is discarded as stale. -/
theorem c3_future_timestamp_accepted :
    ((800 : Int) - (1000 : Int)).natAbs > 120 ∧
    handle (fun _ _ => List.replicate 20 0) (fun _ => some [1]) 800 false
      ⟨[], 0⟩
      ([2, 0] ++ List.replicate 8 0 ++ [0, 0, 3, 232] ++
        [1, 0, 5, 8, 8, 8, 8, 1, 0] ++ List.replicate 10 0) =
      (⟨[(1000, [0, 0, 0, 0, 0, 0, 0, 0])], 1⟩,
       .accepted [] [⟨⟨true, 134744072⟩, "GREYLISTED", none⟩]
         none none none) ∧
    handle (fun _ _ => List.replicate 20 0) (fun _ => some [1]) 1121 false
      ⟨[], 0⟩
      ([2, 0] ++ List.replicate 8 0 ++ [0, 0, 3, 232] ++
        [1, 0, 5, 8, 8, 8, 8, 1, 0] ++ List.replicate 10 0) =
      (⟨[], 0⟩, .discardedStale) := by
  refine ⟨by decide, by decide, by decide⟩

/-- C4: partially true, but the claim fails for the out-of-range
event byte.  A declared length that is not a multiple of the record
width raises AssertionError, which handle catches: clean per-report
discard, no sink call, and a subsequent unrelated report is still
accepted.  An out-of-range event byte (12, one past the last EVENTS
index), however, raises IndexError, which the except AssertionError
clause of handle does NOT catch: the exception escapes the
per-report containment instead of being a clean discard. -/
theorem c4_decode_error_containment :
    handle (fun _ _ => List.replicate 20 0) (fun _ => some [1]) 1050 false
      ⟨[], 0⟩
      ([2, 0] ++ List.replicate 8 0 ++ [0, 0, 3, 232] ++
        [1, 0, 3, 9, 9, 9, 0] ++ List.replicate 10 0) =
      (⟨[(1000, [0, 0, 0, 0, 0, 0, 0, 0])], 0⟩, .discardedBadSubreport []) ∧
    handle (fun _ _ => List.replicate 20 0) (fun _ => some [1]) 1050 false
      ⟨[], 0⟩
      ([2, 0] ++ List.replicate 8 0 ++ [0, 0, 3, 232] ++
        [1, 0, 5, 8, 8, 8, 8, 12, 0] ++ List.replicate 10 0) =
      (⟨[(1000, [0, 0, 0, 0, 0, 0, 0, 0])], 0⟩, .uncaught .indexError) ∧
    EVENTS.length = 12 ∧
    handle (fun _ _ => List.replicate 20 0) (fun _ => some [1]) 1050 false
      ⟨[(1000, [0, 0, 0, 0, 0, 0, 0, 0])], 0⟩
      ([2, 0] ++ [1, 0, 0, 0, 0, 0, 0, 0] ++ [0, 0, 3, 233] ++
        [1, 0, 5, 8, 8, 8, 8, 1, 0] ++ List.replicate 10 0) =
      (⟨[(1001, [1, 0, 0, 0, 0, 0, 0, 0]), (1000, [0, 0, 0, 0, 0, 0, 0, 0])],
        1⟩,
       .accepted [] [⟨⟨true, 134744072⟩, "GREYLISTED", none⟩]
         none none none) :=
  ⟨by decide, by decide, by decide, by decide⟩

/-- C5: the claim fails on the code.  RepeatedIPv6Events (format tag
4) assigns repeat = 18 instead of length = 18, so its length class
attribute stays None and the parser modulus check raises an
UNCAUGHT TypeError for every format-4 subreport: even a declared
length of 18 (a multiple of 18, one well-formed record) crashes out
of handle instead of decoding, and a non-multiple is not a clean
abort either. -/
theorem c5_repeated_ipv6_crashes :
    classLength .repeatedIPv6Events = none ∧
    RepeatedIPv6Events_repeat = 18 ∧
    18 % 18 = 0 ∧
    handle (fun _ _ => List.replicate 20 0) (fun _ => some [1]) 1050 false
      ⟨[], 0⟩
      ([2, 0] ++ List.replicate 8 0 ++ [0, 0, 3, 232] ++
        ([4, 0, 18] ++ List.replicate 16 0 ++ [1, 3, 0]) ++
        List.replicate 10 0) =
      (⟨[(1000, [0, 0, 0, 0, 0, 0, 0, 0])], 0⟩, .uncaught .typeError) ∧
    handle (fun _ _ => List.replicate 20 0) (fun _ => some [1]) 1050 false
      ⟨[], 0⟩
      ([2, 0] ++ List.replicate 8 0 ++ [0, 0, 3, 232] ++
        ([4, 0, 17] ++ List.replicate 16 0 ++ [1, 0]) ++
        List.replicate 10 0) =
      (⟨[(1000, [0, 0, 0, 0, 0, 0, 0, 0])], 0⟩, .uncaught .typeError) :=
  ⟨by decide, by decide, by decide, by decide, by decide⟩

/-- C7: flush batching.  Whenever report generation succeeds with r,
a non-forced flush of a sub-400-byte report makes no transport call
and returns the events buffer untouched, while a forced flush always
hands r to the transport and clears the buffer exactly when the
transport confirms that the bytes sent equal the report length. -/
theorem c7_flush_batching
    (hm : List Nat → List Nat → List Nat) (randB : List Nat) (now : Nat)
    (transport : List Nat → Except Unit Nat)
    (username password : List Nat) (sn sv eu : Option (List Nat))
    (events : List SubR) (r : List Nat)
    (h : client_report hm randB now username password sn sv eu events =
      .ok r) :
    (r.length < 400 →
      send_report hm randB now transport username password sn sv eu events
        false = ⟨events, none, none⟩) ∧
    send_report hm randB now transport username password sn sv eu events
      true =
      ⟨if transport r = .ok r.length then [] else events, some r, none⟩ := by
  constructor
  · intro hlen
    unfold send_report
    rw [h]
    simp [hlen]
  · unfold send_report
    rw [h]
    simp only [Bool.not_true, false_and, if_false]
    cases ht : transport r with
    | error u => simp [ht]
    | ok sent =>
      by_cases hs : sent = r.length
      · simp [ht, hs]
      · simp [ht, hs, Ne.symm hs]

/-- C7 witness: a concrete small report (33 bytes) with force false
is withheld with the buffer intact. -/
theorem c7_witness :
    send_report (fun _ _ => List.replicate 20 0) (List.replicate 8 0) 1000
      (fun bs => .ok bs.length) [] [1] none none none
      [SubR.ipv4Events [⟨⟨true, 134744072⟩, "GREYLISTED", none⟩]] false =
      ⟨[SubR.ipv4Events [⟨⟨true, 134744072⟩, "GREYLISTED", none⟩]],
        none, none⟩ := by
  have h : client_report (fun _ _ => List.replicate 20 0)
      (List.replicate 8 0) 1000 [] [1] none none none
      [SubR.ipv4Events [⟨⟨true, 134744072⟩, "GREYLISTED", none⟩]] =
      .ok [2, 0, 0, 0, 0, 0, 0, 0, 0, 0, 0, 0, 3, 232, 1, 0, 5, 8, 8, 8, 8,
           1, 0, 0, 0, 0, 0, 0, 0, 0, 0, 0, 0] := by decide
  exact (c7_flush_batching (fun _ _ => List.replicate 20 0)
    (List.replicate 8 0) 1000 (fun bs => .ok bs.length) [] [1]
    none none none
    [SubR.ipv4Events [⟨⟨true, 134744072⟩, "GREYLISTED", none⟩]] _ h).1
    (by decide)

/-- C8: an unknown format tag is skipped - the parser drops exactly
the declared payload length and continues with the remainder as if
the unknown subreport were absent - and, concretely, a full report
containing an unknown tag-5 subreport followed by a known IPv4Events
subreport is accepted with the known events delivered to the sink. -/
theorem c8_unknown_tag_skipped :
    (∀ (tag b1 b2 : Nat) (payload rest : List Nat)
       (events : List IPEvent) (sn sv eu : Option (List Nat)),
      FORMATS tag = none → payload.length = 256 * b1 + b2 →
      process_subreports (tag :: b1 :: b2 :: (payload ++ rest))
          events sn sv eu =
        if rest = [] then (events, .ok (sn, sv, eu))
        else process_subreports rest events sn sv eu) ∧
    handle (fun _ _ => List.replicate 20 0) (fun _ => some [1]) 1050 false
      ⟨[], 0⟩
      ([2, 0] ++ List.replicate 8 0 ++ [0, 0, 3, 232] ++
        ([5, 0, 2, 9, 9] ++ [1, 0, 5, 8, 8, 8, 8, 1, 0]) ++
        List.replicate 10 0) =
      (⟨[(1000, [0, 0, 0, 0, 0, 0, 0, 0])], 1⟩,
       .accepted [] [⟨⟨true, 134744072⟩, "GREYLISTED", none⟩]
         none none none) := by
  constructor
  · intro tag b1 b2 payload rest events sn sv eu hft hlen
    rw [process_subreports_eq]
    have hdrop : (payload ++ rest).drop (256 * b1 + b2) = rest := by
      rw [← hlen]; exact List.drop_left _ _
    simp only [process_step, hft, hdrop]
  · decide

/-- C8 witness: the skip equation at tag 5 with a two-byte payload
followed by a known IPv4Events subreport. -/
theorem c8_witness :
    process_subreports
        (5 :: 0 :: 2 :: ([9, 9] ++ [1, 0, 5, 8, 8, 8, 8, 1, 0]))
        [] none none none =
      process_subreports [1, 0, 5, 8, 8, 8, 8, 1, 0] [] none none none := by
  have h := c8_unknown_tag_skipped.1 5 0 2 [9, 9]
    [1, 0, 5, 8, 8, 8, 8, 1, 0] [] none none none (by decide) (by decide)
  simpa using h

/-- C9: whenever a report is discarded for a malformed subreport, the
(timestamp, nonce) pair had already been inserted into the replay
set (the insertion happens before subreport decoding), so an
identical retransmission of the same bytes within the freshness
window - under any sweep outcome - is rejected as a replay. -/
theorem c9_replay_recorded_before_decode
    (hm : List Nat → List Nat → List Nat)
    (pw : List Nat → Option (List Nat)) (now : Int) (doSweep : Bool)
    (st st2 : ServerState) (r : List Nat) (evs : List IPEvent)
    (h : handle hm pw now doSweep st r = (st2, .discardedBadSubreport evs)) :
    (report_ts r, report_nonce r) ∈ st2.recent_reports ∧
    ∀ (now2 : Int) (doSweep2 : Bool), now2 - (report_ts r : Int) ≤ 120 →
      handle hm pw now2 doSweep2 st2 r = (st2, .discardedReplay) := by
  unfold handle at h
  by_cases g1 : (report_body r).length < 2
  · simp [g1] at h
  by_cases g2 : (report_username r).length ≠ report_ulen r
  · simp [g1, g2] at h
  by_cases g3 : ¬ isValidUtf8 (report_username r)
  · simp [g1, g2, g3] at h
  by_cases g4 : report_version r ≠ VERSION
  · simp [g1, g2, g3, g4] at h
  simp only [if_neg g1, if_neg g2, if_neg g3, if_neg g4] at h
  cases hpw : pw (report_username r) with
  | none => rw [hpw] at h; simp at h
  | some password =>
    rw [hpw] at h
    by_cases g5 : password = []
    · simp [g5] at h
    by_cases g6 : (hm password (report_body r)).take 10 ≠ report_footer r
    · simp [g5, g6] at h
    by_cases g7 : report_subs r = []
    · simp [g5, g6, g7] at h
    by_cases g8 : now - (report_ts r : Int) > 120
    · simp [g5, g6, g7, g8] at h
    by_cases g9 : (report_ts r, report_nonce r) ∈ st.recent_reports
    · simp [g5, g6, g7, g8, g9] at h
    simp only [if_neg g5, if_neg g6, if_neg g7, if_neg g8, if_neg g9] at h
    cases hps : process_subreports (report_subs r) [] none none none with
    | mk evs0 res =>
      rw [hps] at h
      cases res with
      | ok trip =>
        obtain ⟨sn0, sv0, eu0⟩ := trip
        simp at h
      | error e =>
        cases e <;> try simp at h
        · obtain ⟨hst, hres⟩ := h
          subst hst
          constructor
          · exact mem_add_report _ _
          · intro now2 doSweep2 hf
            have g8b : ¬ (now2 - (report_ts r : Int) > 120) := by omega
            have hmem : (report_ts r, report_nonce r) ∈
                add_report (report_ts r, report_nonce r)
                  (sweep_reports now doSweep st.recent_reports) :=
              mem_add_report _ _
            unfold handle
            simp only [if_neg g1, if_neg g2, if_neg g3, if_neg g4, hpw,
              if_neg g5, if_neg g6, if_neg g7, if_neg g8b]
            simp [hmem]

/-- C9 witness: a concrete report with a bad-length IPv4Events
subreport is discarded with its pair recorded, and the identical
bytes retransmitted ten seconds later are rejected as a replay. -/
theorem c9_witness :
    (1000, [0, 0, 0, 0, 0, 0, 0, 0]) ∈
      (⟨[(1000, [0, 0, 0, 0, 0, 0, 0, 0])], 0⟩ : ServerState).recent_reports ∧
    handle (fun _ _ => List.replicate 20 0) (fun _ => some [1]) 1060 true
      ⟨[(1000, [0, 0, 0, 0, 0, 0, 0, 0])], 0⟩
      ([2, 0] ++ List.replicate 8 0 ++ [0, 0, 3, 232] ++
        [1, 0, 3, 9, 9, 9, 0] ++ List.replicate 10 0) =
      (⟨[(1000, [0, 0, 0, 0, 0, 0, 0, 0])], 0⟩, .discardedReplay) := by
  have h : handle (fun _ _ => List.replicate 20 0) (fun _ => some [1]) 1050
      false ⟨[], 0⟩
      ([2, 0] ++ List.replicate 8 0 ++ [0, 0, 3, 232] ++
        [1, 0, 3, 9, 9, 9, 0] ++ List.replicate 10 0) =
      (⟨[(1000, [0, 0, 0, 0, 0, 0, 0, 0])], 0⟩,
       .discardedBadSubreport []) := by decide
  have hc := c9_replay_recorded_before_decode _ _ 1050 false _ _ _ _ h
  exact ⟨hc.1, hc.2 1060 true (by decide)⟩

/-- C10: every event handed to the event sink carries an address that
passed the eligibility check (the decoder reconstructs events
through the checking constructor), and a concrete report containing
an event for the private address 10.0.0.1 is discarded in its
entirety with no sink invocation. -/
theorem c10_sink_events_eligible :
    (∀ (hm : List Nat → List Nat → List Nat)
       (pw : List Nat → Option (List Nat)) (now : Int) (doSweep : Bool)
       (st st2 : ServerState) (r u : List Nat) (evs : List IPEvent)
       (sn sv eu : Option (List Nat)),
      handle hm pw now doSweep st r = (st2, .accepted u evs sn sv eu) →
      ∀ e ∈ evs, reportable_ip e.address = true) ∧
    handle (fun _ _ => List.replicate 20 0) (fun _ => some [1]) 1050 false
      ⟨[], 0⟩
      ([2, 0] ++ List.replicate 8 0 ++ [0, 0, 3, 232] ++
        [1, 0, 5, 10, 0, 0, 1, 1, 0] ++ List.replicate 10 0) =
      (⟨[(1000, [0, 0, 0, 0, 0, 0, 0, 0])], 0⟩, .discardedBadSubreport []) ∧
    is_private4 167772161 = true := by
  refine ⟨?_, by decide, by decide⟩
  intro hm pw now doSweep st st2 r u evs sn sv eu h
  exact handle_accepted_reportable h

/-- C10 witness: a concrete accepted report, whose single sink event
for 8.8.8.8 is eligible by the general part of the claim. -/
theorem c10_witness :
    reportable_ip ⟨true, 134744072⟩ = true := by
  have h : handle (fun _ _ => List.replicate 20 0) (fun _ => some [1]) 1050
      false ⟨[], 0⟩
      ([2, 0] ++ List.replicate 8 0 ++ [0, 0, 3, 232] ++
        [1, 0, 5, 8, 8, 8, 8, 2, 0] ++ List.replicate 10 0) =
      (⟨[(1000, [0, 0, 0, 0, 0, 0, 0, 0])], 1⟩,
       .accepted [] [⟨⟨true, 134744072⟩, "UNGREYLISTED", none⟩]
         none none none) := by decide
  exact c10_sink_events_eligible.1 _ _ _ _ _ _ _ _ _ _ _ _ h
    ⟨⟨true, 134744072⟩, "UNGREYLISTED", none⟩ (by simp)

end Rps
